import Mathlib

/-!
Shallow embedding of the nomore-spam GitHub triage action.

The JavaScript sources are embedded as executable Lean definitions:
strings are `String`, machine numbers are `Nat` / `Int` / `ℚ`, the external
classifier oracle is modelled by passing its verdict tokens as parameters and
recording the purposes of the oracle invocations in an explicit trace, and the
side-effecting GitHub API batch is modelled as a list of calls with explicit
per-call outcomes.

To keep every definition kernel-computable we avoid the `String` library
functions that are implemented by position-based recursion and instead work on
`String.data` (the underlying `List Char`) with our own structural helpers.
-/

namespace NomoreSpam

/-! ### String helpers

These model the JavaScript string primitives used throughout the sources
(`includes`, `toLowerCase`, `trim`, `split('\n')`, `startsWith`). -/

/-- Is `pre` a prefix of the second list (char-for-char)? -/
def isPrefixL : List Char → List Char → Bool
  | [], _ => true
  | _ :: _, [] => false
  | a :: as, b :: bs => a = b && isPrefixL as bs

/-- Does the second list contain `needle` as a contiguous sublist?
Models JavaScript `String.prototype.includes` (the empty needle is always
contained). -/
def containsL (needle : List Char) : List Char → Bool
  | [] => needle.isEmpty
  | c :: t => isPrefixL needle (c :: t) || containsL needle t

/-- `hay.includes(needle)` on strings. -/
def strIncludes (hay needle : String) : Bool :=
  containsL needle.data hay.data

/-- `hay.startsWith(needle)` on strings. -/
def strStarts (hay needle : String) : Bool :=
  isPrefixL needle.data hay.data

/-- JavaScript `toLowerCase` (the sources only rely on ASCII case folding). -/
def lower (s : String) : String :=
  String.mk (s.data.map Char.toLower)

/-- JavaScript `trim`: strip whitespace from both ends. -/
def trimS (s : String) : String :=
  String.mk (((s.data.dropWhile Char.isWhitespace).reverse.dropWhile Char.isWhitespace).reverse)

/-- Auxiliary splitter: accumulates the current line in reverse. -/
def splitLinesAux : List Char → List Char → List String
  | [], cur => [String.mk cur.reverse]
  | '\n' :: rest, cur => String.mk cur.reverse :: splitLinesAux rest []
  | c :: rest, cur => splitLinesAux rest (c :: cur)

/-- JavaScript `body.split('\n')` (always returns at least one piece). -/
def splitLines (s : String) : List String :=
  splitLinesAux s.data []

/-- `xs.join(sep)` on strings. -/
def joinWith (sep : String) : List String → String
  | [] => ""
  | [s] => s
  | s :: rest => s ++ sep ++ joinWith sep rest

/-! ### ClassificationService.validateClassification

From `src/services/classificationService.js` (the active version of the class,
lines 225–283): an exact case-insensitive pass over the label list, then a
single per-label containment pass testing both directions, then four alias
groups in source order (enhancement/feature group first).  The JS `for` loops
with early `return` are embedded as structural recursions. -/

/-- First `for` loop of `validateClassification`: exact case-insensitive
equality (no trimming in this version of the source). -/
def exactMatchLoop (cl : String) : List String → Option String
  | [] => none
  | l :: rest => if lower l = lower cl then some l else exactMatchLoop cl rest

/-- Second `for` loop of `validateClassification`: for each label in turn the
source tests `classification.includes(label) || label.includes(classification)`
(both directions inside one loop iteration). -/
def containMatchLoop (cl : String) : List String → Option String
  | [] => none
  | l :: rest =>
    if strIncludes (lower cl) (lower l) || strIncludes (lower l) (lower cl) then some l
    else containMatchLoop cl rest

/-- Alias-group fallback of `validateClassification`, in source order:
enhancement/feature/improve, then bug/fix/error, then doc/readme, then
question/help.  Each group fires only when the label set contains a label
matching its target stem, and returns the first such label. -/
def aliasMatch (cl : String) (labels : List String) : Option String :=
  let cll := lower cl
  if (strIncludes cll "enhancement" || strIncludes cll "feature" || strIncludes cll "improve")
      && (labels.any (fun l => strIncludes (lower l) "enhancement")
          || labels.any (fun l => strIncludes (lower l) "feature")) then
    labels.find? (fun l => strIncludes (lower l) "enhancement" || strIncludes (lower l) "feature")
  else if (strIncludes cll "bug" || strIncludes cll "fix" || strIncludes cll "error")
      && labels.any (fun l => strIncludes (lower l) "bug") then
    labels.find? (fun l => strIncludes (lower l) "bug")
  else if (strIncludes cll "doc" || strIncludes cll "readme")
      && labels.any (fun l => strIncludes (lower l) "doc") then
    labels.find? (fun l => strIncludes (lower l) "doc")
  else if (strIncludes cll "question" || strIncludes cll "help")
      && labels.any (fun l => strIncludes (lower l) "question") then
    labels.find? (fun l => strIncludes (lower l) "question")
  else
    none

/-- `validateClassification(classification, labelsList)`.  A falsy (empty)
classification resolves to `none`. -/
def validateClassification (cl : String) (labels : List String) : Option String :=
  if cl = "" then none
  else
    match exactMatchLoop cl labels with
    | some l => some l
    | none =>
      match containMatchLoop cl labels with
      | some l => some l
      | none => aliasMatch cl labels

/-- The resolver exactly as claim C2 words it: rule (2) "model answer contains a
label" is tried across the whole label set before rule (3) "label contains the
model answer", rule (1) compares the trimmed answer, and the alias groups are
tried with the bug group first.  Used only to compare the claim against the
source. -/
def resolveClaimC2 (cl : String) (labels : List String) : Option String :=
  match labels.find? (fun l => lower l = lower (trimS cl)) with
  | some l => some l
  | none =>
    match labels.find? (fun l => strIncludes (lower cl) (lower l)) with
    | some l => some l
    | none =>
      match labels.find? (fun l => strIncludes (lower l) (lower cl)) with
      | some l => some l
      | none =>
        let cll := lower cl
        if (strIncludes cll "bug" || strIncludes cll "fix" || strIncludes cll "error")
            && labels.any (fun l => strIncludes (lower l) "bug") then
          labels.find? (fun l => strIncludes (lower l) "bug")
        else if (strIncludes cll "enhancement" || strIncludes cll "feature" || strIncludes cll "improve")
            && labels.any (fun l => strIncludes (lower l) "enhancement" || strIncludes (lower l) "feature") then
          labels.find? (fun l => strIncludes (lower l) "enhancement" || strIncludes (lower l) "feature")
        else if (strIncludes cll "doc" || strIncludes cll "readme")
            && labels.any (fun l => strIncludes (lower l) "doc") then
          labels.find? (fun l => strIncludes (lower l) "doc")
        else if (strIncludes cll "question" || strIncludes cll "help")
            && labels.any (fun l => strIncludes (lower l) "question") then
          labels.find? (fun l => strIncludes (lower l) "question")
        else
          none

/-- Alias groups of the resolver, as (trigger stems, target stems) pairs in the
order the source tests them. -/
def aliasGroups : List (List String × List String) :=
  [ (["enhancement", "feature", "improve"], ["enhancement", "feature"]),
    (["bug", "fix", "error"], ["bug"]),
    (["doc", "readme"], ["doc"]),
    (["question", "help"], ["question"]) ]

/-- Alias lookup driven by the `aliasGroups` table: the first group whose
trigger stems match the answer and whose target stems match some label
resolves to the first label matching a target stem. -/
def amendedAlias (cl : String) (labels : List String) : Option String :=
  aliasGroups.findSome? fun g =>
    if (g.1.any fun t => strIncludes (lower cl) t)
        && (labels.any fun l => g.2.any fun st => strIncludes (lower l) st) then
      labels.find? (fun l => g.2.any fun st => strIncludes (lower l) st)
    else
      none

/-- The amended description of the resolver: an exact untrimmed
case-insensitive pass, then one containment pass testing both directions per
label, then the alias groups of `aliasGroups` in order. -/
def resolveAmendedC2 (cl : String) (labels : List String) : Option String :=
  if cl = "" then none
  else
    (labels.find? (fun l => lower l = lower cl)).orElse fun _ =>
      (labels.find? (fun l =>
          strIncludes (lower cl) (lower l) || strIncludes (lower l) (lower cl))).orElse fun _ =>
        amendedAlias cl labels

/-! Equality of the source loops with `List.find?`. -/

theorem exactMatchLoop_eq_find (cl : String) (labels : List String) :
    exactMatchLoop cl labels = labels.find? (fun l => lower l = lower cl) := by
  induction labels with
  | nil => rfl
  | cons l rest ih =>
    by_cases h : lower l = lower cl
    · simp [exactMatchLoop, List.find?, h]
    · simp only [exactMatchLoop, List.find?, h, if_neg, ih]
      simp [h]

theorem containMatchLoop_eq_find (cl : String) (labels : List String) :
    containMatchLoop cl labels =
      labels.find? (fun l =>
        strIncludes (lower cl) (lower l) || strIncludes (lower l) (lower cl)) := by
  induction labels with
  | nil => rfl
  | cons l rest ih =>
    by_cases h : (strIncludes (lower cl) (lower l) || strIncludes (lower l) (lower cl)) = true
    · simp [containMatchLoop, List.find?, h]
    · simp only [containMatchLoop, List.find?, h, if_neg, ih]
      simp_all

theorem list_any_or (l : List String) (p q : String → Bool) :
    (l.any fun x => p x || q x) = (l.any p || l.any q) := by
  induction l with
  | nil => rfl
  | cons x t ih =>
    simp only [List.any_cons, ih]
    cases p x <;> cases q x <;> cases List.any t p <;> cases List.any t q <;> rfl

theorem find_of_exists (labels : List String) (p : String → Bool)
    (h : ∃ x ∈ labels, p x = true) : ∃ v, labels.find? p = some v := by
  obtain ⟨x, hx, hpx⟩ := h
  exact Option.isSome_iff_exists.mp (List.find?_isSome.mpr ⟨x, hx, hpx⟩)

theorem aliasMatch_eq_amended (cl : String) (labels : List String) :
    aliasMatch cl labels = amendedAlias cl labels := by
  unfold aliasMatch amendedAlias
  simp only [aliasGroups, List.findSome?_cons, List.findSome?_nil,
    List.any_cons, List.any_nil, Bool.or_false, list_any_or]
  simp only [Bool.and_eq_true, Bool.or_eq_true, List.any_eq_true, or_assoc]
  by_cases h1 : (strIncludes (lower cl) "enhancement" = true
        ∨ strIncludes (lower cl) "feature" = true ∨ strIncludes (lower cl) "improve" = true)
      ∧ ((∃ x ∈ labels, strIncludes (lower x) "enhancement" = true)
          ∨ ∃ x ∈ labels, strIncludes (lower x) "feature" = true)
  · have hex : ∃ x ∈ labels,
        (strIncludes (lower x) "enhancement" || strIncludes (lower x) "feature") = true := by
      rcases h1.2 with ⟨x, hx, hp⟩ | ⟨x, hx, hp⟩
      · exact ⟨x, hx, by simp [hp]⟩
      · exact ⟨x, hx, by simp [hp]⟩
    obtain ⟨v, hv⟩ := find_of_exists labels _ hex
    rw [if_pos h1, hv, if_pos h1]
  · rw [if_neg h1, if_neg h1]
    by_cases h2 : (strIncludes (lower cl) "bug" = true
          ∨ strIncludes (lower cl) "fix" = true ∨ strIncludes (lower cl) "error" = true)
        ∧ ∃ x ∈ labels, strIncludes (lower x) "bug" = true
    · obtain ⟨v, hv⟩ := find_of_exists labels _ h2.2
      rw [if_pos h2, hv, if_pos h2]
    · rw [if_neg h2, if_neg h2]
      by_cases h3 : (strIncludes (lower cl) "doc" = true
            ∨ strIncludes (lower cl) "readme" = true)
          ∧ ∃ x ∈ labels, strIncludes (lower x) "doc" = true
      · obtain ⟨v, hv⟩ := find_of_exists labels _ h3.2
        rw [if_pos h3, hv, if_pos h3]
      · rw [if_neg h3, if_neg h3]
        by_cases h4 : (strIncludes (lower cl) "question" = true
              ∨ strIncludes (lower cl) "help" = true)
            ∧ ∃ x ∈ labels, strIncludes (lower x) "question" = true
        · obtain ⟨v, hv⟩ := find_of_exists labels _ h4.2
          rw [if_pos h4, hv]
        · rw [if_neg h4]

theorem validate_eq_amended (cl : String) (labels : List String) :
    validateClassification cl labels = resolveAmendedC2 cl labels := by
  unfold validateClassification resolveAmendedC2
  by_cases hcl : cl = ""
  · simp [hcl]
  · rw [if_neg hcl, if_neg hcl, exactMatchLoop_eq_find, containMatchLoop_eq_find,
      aliasMatch_eq_amended]
    rcases h1 : labels.find? (fun l => lower l = lower cl) with _ | v
    · rcases h2 : labels.find? (fun l =>
          strIncludes (lower cl) (lower l) || strIncludes (lower l) (lower cl)) with _ | w
      · simp [Option.orElse]
      · simp [Option.orElse]
    · simp [Option.orElse]

/-! ### helpers.js

`isValidCommitTitle` tests the trimmed title against the case-insensitive
regular expression

  `^(feat|fix|docs|style|refactor|perf|test|chore|ci|build|revert)(\(.+\))?: .{1,}$`

We embed the regex structurally: the whole (lower-cased, trimmed) character
list must decompose as a type keyword, an optional non-empty parenthesised
scope, the literal ": " and a non-empty description, where `.` stands for any
character except a JavaScript line terminator. -/

/-- The commit types accepted by the Conventional-Commits check. -/
def commitTypes : List String :=
  ["feat", "fix", "docs", "style", "refactor", "perf", "test", "chore", "ci", "build", "revert"]

/-- A character the JavaScript regex `.` can match (anything but a line
terminator). -/
def isDotChar (c : Char) : Bool :=
  !(c = '\n' || c = '\r' || c = Char.ofNat 0x2028 || c = Char.ofNat 0x2029)

/-- Matches the tail grammar `: .{1,}$`: a colon, a space and a non-empty
run of dot characters reaching the end. -/
def descMatch : List Char → Bool
  | ':' :: ' ' :: d => !d.isEmpty && d.all isDotChar
  | _ => false

/-- Matches `.+\): .{1,}$`: at least one dot character of scope text, a
closing parenthesis and then the description tail.  The recursion realises the
existential choice of where the scope ends. -/
def scopeMatch : List Char → Bool
  | [] => false
  | c :: rest =>
    isDotChar c &&
      ((match rest with
        | ')' :: after => descMatch after
        | _ => false)
       || scopeMatch rest)

/-- Matches `(\(.+\))?: .{1,}$`: either the description tail directly or an
opening parenthesis followed by the scope grammar. -/
def restMatch (l : List Char) : Bool :=
  descMatch l ||
    (match l with
     | '(' :: r => scopeMatch r
     | _ => false)

/-- `isValidCommitTitle(title)` from `src/utils/helpers.js`: the local
Conventional-Commits regex test on the trimmed title (case-insensitive). -/
def isValidCommitTitle (title : String) : Bool :=
  let s := (lower (trimS title)).data
  commitTypes.any fun typ => isPrefixL typ.data s && restMatch (s.drop typ.data.length)

/-! ### `executeApiCalls` and `closeIssue` (helpers.js / github.js)

A GitHub API call is modelled by its name together with the outcome its
`operation()` would have (`ok = false` means the underlying request throws).
`executeApiCalls` loops over the batch, catching each failure and recording it,
and never aborts the loop. -/

/-- One side-effecting API call of a terminal action, with its outcome. -/
structure ApiCall where
  name : String
  ok : Bool
  deriving Repr, DecidableEq

/-- The per-call result record pushed by `executeApiCalls`. -/
structure CallResult where
  name : String
  success : Bool
  deriving Repr, DecidableEq

/-- `executeApiCalls(calls)`: every call is attempted in order; a throwing
call is recorded as `success: false` and the loop continues. -/
def executeApiCalls : List ApiCall → List CallResult
  | [] => []
  | c :: rest => { name := c.name, success := c.ok } :: executeApiCalls rest

/-- The call list built by `closeIssue` in `src/services/github.js`: a comment,
then the close update, then — only when `shouldLock` — the lock call. -/
def closeIssueCalls (commentOk closeOk lockOk shouldLock : Bool) : List ApiCall :=
  [{ name := "comment", ok := commentOk }, { name := "close", ok := closeOk }] ++
    (if shouldLock then [{ name := "lock", ok := lockOk }] else [])

/-- `closeIssue(...)` = `executeApiCalls` over its call list. -/
def closeIssue (commentOk closeOk lockOk shouldLock : Bool) : List CallResult :=
  executeApiCalls (closeIssueCalls commentOk closeOk lockOk shouldLock)

/-! ### IssueAnalyzer (src/services/issueAnalyzer.js)

The staged pipelines.  The external classifier oracle is modelled by passing
in the verdict token each stage's `callAI` would produce; the result records
the decision, the step that produced it and the ordered purposes of the oracle
invocations actually made.  Prompt construction (pure template substitution
from config.json) is outside the decision logic and not modelled. -/

/-- The artifact under triage (`issue` / `pr` objects: title and body). -/
structure Artifact where
  title : String
  body : String
  deriving Repr, DecidableEq

/-- Outcome of a layered analysis: final decision, the step that produced it,
and the purposes of the oracle calls that were issued, in order. -/
structure PipelineResult where
  decision : String
  step : Nat
  oracleCalls : List String
  deriving Repr, DecidableEq

/-- `checkReadmeCoverage`: with neither README nor pinned content the stage
yields `NOT_COVERED` without consulting the oracle; otherwise it returns the
oracle verdict `covV` (and one oracle call is made). -/
def checkReadmeCoverage (covV readme pinned : String) : String × List String :=
  if readme = "" && pinned = "" then ("NOT_COVERED", [])
  else (covV, ["readme_coverage_check"])

/-- `analyzeIssue(issue, readmeContent, pinnedIssuesContent,
templateAnalysisReport)`: spam stage (oracle verdict `spamV`), then README
coverage stage, then `KEEP`.  The issue and the report feed only the prompts,
not the control flow. -/
def analyzeIssue (issue : Artifact) (readme pinned report : String)
    (spamV covV : String) : PipelineResult :=
  let _ := issue
  let _ := report
  if spamV = "SPAM" then
    { decision := "SPAM", step := 1, oracleCalls := ["spam_detection"] }
  else
    let cov := checkReadmeCoverage covV readme pinned
    if cov.1 = "COVERED" then
      { decision := "README_COVERED", step := 2, oracleCalls := "spam_detection" :: cov.2 }
    else
      { decision := "KEEP", step := 2, oracleCalls := "spam_detection" :: cov.2 }

/-- `analyzePR(pr, fileChanges)`: spam stage, then the commit-compliance stage
(an oracle call whose verdict is `commitV`), then the quality stage.  The PR
and the file-change summary feed only the prompts, not the control flow. -/
def analyzePR (pr : Artifact) (fileChanges : String)
    (spamV commitV qualityV : String) : PipelineResult :=
  let _ := pr
  let _ := fileChanges
  if spamV = "SPAM" then
    { decision := "SPAM", step := 1, oracleCalls := ["pr_spam_detection"] }
  else if commitV = "INVALID" then
    { decision := "INVALID_COMMIT", step := 2,
      oracleCalls := ["pr_spam_detection", "pr_commit_check"] }
  else if qualityV = "UNCLEAR" then
    { decision := "UNCLEAR", step := 3,
      oracleCalls := ["pr_spam_detection", "pr_commit_check", "pr_quality_check"] }
  else if qualityV = "MALICIOUS" then
    { decision := "MALICIOUS", step := 3,
      oracleCalls := ["pr_spam_detection", "pr_commit_check", "pr_quality_check"] }
  else if qualityV = "TRIVIAL" then
    { decision := "TRIVIAL", step := 3,
      oracleCalls := ["pr_spam_detection", "pr_commit_check", "pr_quality_check"] }
  else
    { decision := "KEEP", step := 3,
      oracleCalls := ["pr_spam_detection", "pr_commit_check", "pr_quality_check"] }

/-! ### PR handler dispatch (handlers/prHandler.js, current version)

`handleNewPR` maps the decision of the layered detection to GitHub actions.
`UNCLEAR` and the default (`KEEP`) both run `handleValidPR`, which classifies
and labels the PR whenever the label list is non-empty. -/

/-- An action the PR handler performs after the pipeline decision. -/
inductive PRAction where
  /-- `closePRWithType`: comment with the configured response and close. -/
  | closeWithResponse (responseKey : String) : PRAction
  /-- `classifyAndLabelPR`: one classification oracle call plus label add. -/
  | classifyAndLabel : PRAction
  deriving Repr, DecidableEq

/-- `handleValidPR`: classify and label only when the label list is
non-empty. -/
def handleValidPRActions (labels : List String) : List PRAction :=
  if labels.length > 0 then [PRAction.classifyAndLabel] else []

/-- The decision dispatch of `handleNewPR` (current handler version). -/
def handlePRDecision (decision : String) (labels : List String) : List PRAction :=
  if decision = "SPAM" then [PRAction.closeWithResponse "pr_closed"]
  else if decision = "INVALID_COMMIT" then [PRAction.closeWithResponse "pr_invalid_commit"]
  else if decision = "MALICIOUS" then [PRAction.closeWithResponse "pr_malicious"]
  else if decision = "TRIVIAL" then [PRAction.closeWithResponse "pr_trivial"]
  else if decision = "UNCLEAR" then handleValidPRActions labels
  else handleValidPRActions labels

/-- `handleNewPR` (after the blacklist check): layered detection followed by
the decision dispatch. -/
def handleNewPR (pr : Artifact) (fileChanges : String)
    (spamV commitV qualityV : String) (labels : List String) : List PRAction :=
  handlePRDecision (analyzePR pr fileChanges spamV commitV qualityV).decision labels

/-! ### templateDetector.js

`TEMPLATE_PATTERNS` and the analysis functions.  The JavaScript global
regexes are matched line by line: none of the template indicator patterns can
match across a `'\n'` (the only cross-line corner cases are the `\s*` runs of
the checkbox/quote/table patterns, which can swallow a newline in pathological
bodies; those rare cross-line matches are not modelled and no claim depends on
the exact indicator counts). -/

/-- `TITLE_PREFIXES`. -/
def titlePrefixes : List String :=
  ["[BUG]", "[FEATURE]", "[Feature Request]", "[Bug Report]", "[ENHANCEMENT]", "[QUESTION]"]

/-- `COMMON_FIELDS` (bilingual template field names). -/
def commonFields : List String :=
  ["description", "expected behavior", "actual behavior", "steps to reproduce",
   "environment", "version", "browser", "additional context", "screenshots",
   "描述", "预期行为", "实际行为", "复现步骤", "环境信息", "版本", "浏览器",
   "附加信息", "截图", "bug描述", "功能描述", "如何实现", "自查", "确认"]

/-- Helper for the delimited patterns `\*\*.+\*\*`, `<!--.+-->` and
`\|\s*.+\s*\|`: the suffix of `l` after the first occurrence of `needle`. -/
def afterFirst (needle : List Char) : List Char → Option (List Char)
  | [] => if needle.isEmpty then some [] else none
  | c :: t =>
    if isPrefixL needle (c :: t) then some ((c :: t).drop needle.length)
    else afterFirst needle t

/-- A line matches an `open .+ close` pattern iff after the first occurrence
of the opening delimiter there is an occurrence of the closing delimiter with
at least one character in between. -/
def delimPair (l openD closeD : List Char) : Bool :=
  match afterFirst openD l with
  | none => false
  | some rest => containsL closeD (rest.drop 1)

/-- Indicator `/### .*/` on one line. -/
def lineHeader3 (l : String) : Bool := strIncludes l "### "

/-- Indicator `/## .*/` on one line (also fires inside `### ` headers). -/
def lineHeader2 (l : String) : Bool := strIncludes l "## "

/-- Indicators `/\*\*.+\*\*/` and `/\*\*(.+)\*\*/` on one line. -/
def lineBold (l : String) : Bool := delimPair l.data "**".data "**".data

/-- Indicator `/<!--.+-->/` on one line. -/
def lineHtmlComment (l : String) : Bool := delimPair l.data "<!--".data "-->".data

/-- Indicator `/^\s*-\s*\[[\sx]\]/` on one line. -/
def lineCheckbox (l : String) : Bool :=
  match l.data.dropWhile Char.isWhitespace with
  | '-' :: r =>
    match r.dropWhile Char.isWhitespace with
    | '[' :: c :: ']' :: _ => c.isWhitespace || c = 'x'
    | _ => false
  | _ => false

/-- Indicator `/^>\s*.+/` on one line: a leading `>` followed by at least one
character (any single-line character can serve as the `.+`). -/
def lineQuote (l : String) : Bool :=
  match l.data with
  | '>' :: r => !r.isEmpty
  | _ => false

/-- Indicator `/\|\s*.+\s*\|/` on one line. -/
def lineTable (l : String) : Bool := delimPair l.data "|".data "|".data

/-- `TEMPLATE_PATTERNS.TEMPLATE_INDICATORS.some(p => p.test(line))`, as used by
`extractUserContent` to recognise section header lines. -/
def isHeaderLine (l : String) : Bool :=
  lineHeader3 l || lineHeader2 l || lineBold l || lineHtmlComment l
    || lineCheckbox l || lineQuote l || lineTable l

/-- Global match count of the eight indicator regexes over the body: each
line contributes one match per pattern it satisfies (the greedy `.*`/`.+`
parts make repeated matches of one pattern within a single line impossible;
the two bold patterns both fire on a bold line). -/
def patternCount (lines : List String) : Nat :=
  (lines.filter lineHeader3).length + (lines.filter lineHeader2).length +
    (lines.filter lineBold).length + (lines.filter lineBold).length +
    (lines.filter lineHtmlComment).length + (lines.filter lineCheckbox).length +
    (lines.filter lineQuote).length + (lines.filter lineTable).length

/-- Number of `COMMON_FIELDS` entries whose case-insensitive regex tests true
on the body. -/
def fieldCount (body : String) : Nat :=
  (commonFields.filter fun f => strIncludes (lower body) (lower f)).length

/-- The indicator count accumulated by `detectTemplate`: +2 for a recognised
title prefix, one per template-pattern match, plus the field count when at
least two fields are present. -/
def indicatorCount (title body : String) : Nat :=
  (if titlePrefixes.any (fun p => strIncludes title p) then 2 else 0) +
    patternCount (splitLines body) +
    (if 2 ≤ fieldCount body then fieldCount body else 0)

/-- `body.split('\n').length`. -/
def totalLines (body : String) : Nat := (splitLines body).length

/-- Result of `detectTemplate` (the diagnostic `indicators` string list is
not modelled; no decision logic reads it). -/
structure TemplateAnalysis where
  hasTemplate : Bool
  templateType : Option String
  confidence : ℚ
  deriving Repr, DecidableEq

/-- `detectTemplate(issueTitle, issueBody)`.  An empty body short-circuits to
the all-zero result.  Confidence is
`min(100, indicatorCount / max(totalLines / 5, 1) * 100)` and the template
flag requires confidence strictly above 30.  The type scans title and body
for "bug" then "feature" keywords, else `generic`; with no template it stays
unset. -/
def detectTemplate (title body : String) : TemplateAnalysis :=
  if body = "" then
    { hasTemplate := false, templateType := none, confidence := 0 }
  else
    let conf : ℚ :=
      min 100 ((indicatorCount title body : ℚ) / max ((totalLines body : ℚ) / 5) 1 * 100)
    let ht : Bool := conf > 30
    let tt : Option String :=
      if ht then
        if strIncludes (lower title) "bug" || strIncludes (lower body) "bug" then
          some "bug_report"
        else if strIncludes (lower title) "feature" || strIncludes (lower body) "feature" then
          some "feature_request"
        else
          some "generic"
      else none
    { hasTemplate := ht, templateType := tt, confidence := conf }

/-- The `EMPTY_PATTERNS` tests applied to the trimmed content. -/
def matchesEmptyPattern (t : String) : Bool :=
  lower t = "_no response_" || lower t = "n/a" || lower t = "none" ||
    t = "无" || t = "没有" || t = "暂无" || t = "" ||
    (!t.data.isEmpty && t.data.all (fun c => c = '.')) ||
    (!t.data.isEmpty && t.data.all (fun c => c = '-')) ||
    (!t.data.isEmpty && t.data.all (fun c => c = '#'))

/-- Left-to-right removal of `[x]` occurrences (`replace(/\[[\sx]\]/g, '')`;
after the first replace no whitespace remains, so only the `x` form can
occur). -/
def removeBracketX : List Char → List Char
  | '[' :: 'x' :: ']' :: rest => removeBracketX rest
  | c :: rest => c :: removeBracketX rest
  | [] => []

/-- The `cleanContent` computation of `isEmptyContent`: strip the markup
characters `-_*#>` and whitespace, then checkbox bodies, then table pipes. -/
def cleanContent (content : String) : List Char :=
  let s1 := content.data.filter fun c =>
    !(c = '-' || c = '_' || c = '*' || c = '#' || c = '>' || c.isWhitespace)
  (removeBracketX s1).filter fun c => c ≠ '|'

/-- `isEmptyContent(content)`: blank, a placeholder pattern, or fewer than 3
meaningful characters after stripping markup. -/
def isEmptyContent (content : String) : Bool :=
  trimS content = "" || matchesEmptyPattern (trimS content) ||
    (cleanContent content).length < 3

/-- A retained template section. -/
structure TemplateSection where
  title : String
  content : String
  deriving Repr, DecidableEq

/-- Result of `extractUserContent`.  In the untemplated branch the source
object carries no `totalSections`/`validSections` properties; that is
modelled with `none`. -/
structure ExtractedContent where
  userContent : String
  isEmpty : Bool
  extractedSections : List TemplateSection
  totalSections : Option Nat
  validSections : Option Nat
  deriving Repr, DecidableEq

/-- `currentSection.replace(/[#*>]/g, '').trim()`. -/
def stripHeaderMarkers (l : String) : String :=
  trimS (String.mk (l.data.filter fun c => !(c = '#' || c = '*' || c = '>')))

/-- Saving a finished section: requires a truthy section title and non-empty
collected lines, and drops content that trims to nothing or matches the
empty-content rules.  (The source's `lineStart`/`lineEnd` bookkeeping fields
are unused downstream and not modelled.) -/
def saveSection (cur : Option String) (curContent : List String)
    (acc : List TemplateSection) : List TemplateSection :=
  match cur with
  | none => acc
  | some t =>
    if t ≠ "" ∧ curContent ≠ [] then
      let c := trimS (joinWith "\n" curContent)
      if c ≠ "" ∧ !isEmptyContent c then acc ++ [{ title := t, content := c }] else acc
    else acc

/-- The line loop of `extractUserContent`. -/
def extractLoop : List String → Option String → List String → List TemplateSection →
    List TemplateSection
  | [], cur, curContent, acc => saveSection cur curContent acc
  | l :: rest, cur, curContent, acc =>
    if isHeaderLine l then
      extractLoop rest (some (stripHeaderMarkers l)) [] (saveSection cur curContent acc)
    else
      extractLoop rest cur (curContent ++ [l]) acc

/-- `extractUserContent(issueBody, templateInfo)`. -/
def extractUserContent (body : String) (ti : TemplateAnalysis) : ExtractedContent :=
  if body = "" || !ti.hasTemplate then
    { userContent := body, isEmpty := trimS body = "", extractedSections := [],
      totalSections := none, validSections := none }
  else
    let sections := extractLoop (splitLines body) none [] []
    let parts := (sections.filter fun s => s.content ≠ "" ∧ !isEmptyContent s.content).map
      fun s => s.title ++ ": " ++ s.content
    { userContent := joinWith "\n\n" parts,
      isEmpty := parts.length = 0,
      extractedSections := sections,
      totalSections := some sections.length,
      validSections := some parts.length }

/-- Result of `analyzeIssueQuality` (quality part; the `reasons` strings are
diagnostic only and not modelled). -/
structure IssueQuality where
  templateInfo : TemplateAnalysis
  contentInfo : ExtractedContent
  score : ℤ
  level : String
  deriving Repr, DecidableEq

/-- `analyzeIssueQuality(issueTitle, issueBody)`: base 50, title bonus/penalty
on the trimmed title length, content contribution from the template analysis
or the trimmed body length, clamped to [0, 100], with the three-way level
thresholds 70 and 40. -/
def analyzeIssueQuality (title body : String) : IssueQuality :=
  let ti := detectTemplate title body
  let ci := extractUserContent body ti
  let s1 : ℤ := if title ≠ "" ∧ 10 < (trimS title).length then 50 + 15 else 50 - 10
  let s2 : ℤ :=
    if ti.hasTemplate then
      if !ci.isEmpty ∧ 2 ≤ ci.validSections.getD 0 then s1 + 25
      else if !ci.isEmpty then s1 + 10
      else s1 - 20
    else
      if body ≠ "" ∧ 50 < (trimS body).length then s1 + 20
      else if body ≠ "" ∧ 10 < (trimS body).length then s1 + 5
      else s1 - 25
  let score := max 0 (min 100 s2)
  let level := if score ≥ 70 then "high" else if score ≥ 40 then "medium" else "low"
  { templateInfo := ti, contentInfo := ci, score := score, level := level }

/-! ### File-change summary (handlers/prHandler.js `analyzeFileChanges`)

The GitHub diff records and the bounded per-file summary.  The final string
is produced by rendering the entries joined with `"\n---\n"` plus a
truncation message whose template lives in `config.json`; the summary's
structure — which entries appear and which truncation data is reported — is
modelled explicitly so the bounds are visible. -/

/-- A PR file-diff record as returned by the repository data source. -/
structure PRFile where
  filename : String
  status : String
  additions : Nat
  deletions : Nat
  patch : Option String
  deriving Repr, DecidableEq

/-- The added/removed lines of a patch: `patch.split('\n')` filtered to lines
starting with `+` or `-`. -/
def addRemoveLines (patch : String) : List String :=
  (splitLines patch).filter fun l => strStarts l "+" || strStarts l "-"

/-- The per-file `changeInfo` string: name, status and counts, plus up to
`maxPatchLines` added/removed diff lines and a `...` marker when more such
lines exist. -/
def fileChangeInfo (maxPatchLines : Nat) (f : PRFile) : String :=
  let base := f.filename ++ "(" ++ f.status ++ ",+" ++ toString f.additions ++ "/-"
    ++ toString f.deletions ++ ")"
  match f.patch with
  | none => base
  | some p =>
    let all := addRemoveLines p
    let limited := joinWith "\n" (all.take maxPatchLines)
    if trimS limited ≠ "" then
      base ++ "\n" ++ limited ++ (if maxPatchLines < all.length then "\n..." else "")
    else base

/-- The structure of the summary built by `analyzeFileChanges` on a non-empty
diff: the rendered entries for the first `maxFiles` files, and — when the
diff holds more files than the cap — the (total, shown) pair interpolated
into the configured truncation message. -/
def fileChangesSummary (maxFiles maxPatchLines : Nat) (files : List PRFile) :
    List String × Option (Nat × Nat) :=
  ((files.take maxFiles).map (fileChangeInfo maxPatchLines),
   if maxFiles < files.length then some (files.length, maxFiles) else none)

/-- A file-analysis depth preset: maximum files and diff lines per file. -/
structure DepthPreset where
  maxFiles : Nat
  maxLines : Nat
  deriving Repr, DecidableEq

/-- Modelled from the spec: the `analysis_depths` presets live in
`config.json`, which is not among the sources; the spec (and the repository
README) give light = 3 files / 3 lines. -/
def lightDepth : DepthPreset := { maxFiles := 3, maxLines := 3 }

/-- Modelled from the spec: normal = 5 files / 5 lines. -/
def normalDepth : DepthPreset := { maxFiles := 5, maxLines := 5 }

/-- Modelled from the spec: deep = 10 files / 10 lines. -/
def deepDepth : DepthPreset := { maxFiles := 10, maxLines := 10 }

/-! ## Claim theorems -/

/-- Claim C1: in `analyzeIssue`, a stage-1 verdict `SPAM` yields the final
decision `SPAM` attributed to step 1, and the stage-2 README-coverage oracle
is never invoked (its purpose never appears in the oracle-call trace). -/
theorem c1_issue_spam_short_circuit (issue : Artifact) (readme pinned report covV : String) :
    analyzeIssue issue readme pinned report "SPAM" covV =
      { decision := "SPAM", step := 1, oracleCalls := ["spam_detection"] } ∧
    "readme_coverage_check" ∉ (analyzeIssue issue readme pinned report "SPAM" covV).oracleCalls := by
  have h : analyzeIssue issue readme pinned report "SPAM" covV =
      { decision := "SPAM", step := 1, oracleCalls := ["spam_detection"] } := rfl
  refine ⟨h, ?_⟩
  rw [h]
  decide

/-- Claim C2 counterexample: on the answer "bug" with label set
["bugfix", "bu"], the claimed rule order (rule 2 — answer contains a label —
tried across the whole set before rule 3) yields "bu", but the source's single
combined containment pass returns "bugfix"; the claim as stated is false. -/
theorem c2_counterexample :
    validateClassification "bug" ["bugfix", "bu"] = some "bugfix" ∧
    resolveClaimC2 "bug" ["bugfix", "bu"] = some "bu" ∧
    validateClassification "bug" ["bugfix", "bu"] ≠ resolveClaimC2 "bug" ["bugfix", "bu"] := by
  refine ⟨by decide, by decide, by decide⟩

/-- Claim C2 (amended): `validateClassification` equals the resolver that
tries (1) exact untrimmed case-insensitive equality, (2) one containment pass
where each label is tested in both directions, (3) the alias groups in order
enhancement/feature/improve, bug/fix/error, doc/readme, question/help, each
only when a label matches its target stem; and the claim's three concrete
examples hold. -/
theorem c2_amended (cl : String) (labels : List String) :
    validateClassification cl labels = resolveAmendedC2 cl labels ∧
    validateClassification "BUG" ["bug", "enhancement"] = some "bug" ∧
    validateClassification "bugfix please" ["bug"] = some "bug" ∧
    validateClassification "xyz" ["bug"] = none :=
  ⟨validate_eq_amended cl labels, by decide, by decide, by decide⟩

/-- Claim C3 counterexample: the PR pipeline's stage-2 check is an oracle
call, not the local regex.  With the title "update stuff" (which fails the
regex) and a stage-2 oracle verdict other than `INVALID`, the pipeline
reaches `KEEP` — no `INVALID_COMMIT` — and its trace contains the stage-2
oracle invocation. -/
theorem c3_counterexample :
    isValidCommitTitle "update stuff" = false ∧
    (analyzePR { title := "update stuff", body := "" } "" "OK" "VALID" "VALID").decision
      = "KEEP" ∧
    "pr_commit_check" ∈
      (analyzePR { title := "update stuff", body := "" } "" "OK" "VALID" "VALID").oracleCalls := by
  refine ⟨by decide, by decide, by decide⟩

/-- Claim C3 (amended): the stage-2 commit-compliance stage of `analyzePR` is
an oracle call; an `INVALID` verdict yields the terminal decision
`INVALID_COMMIT` at step 2 and the quality stage is never reached.  The local
regex `isValidCommitTitle` (used only by a superseded handler) implements the
stated grammar: "update stuff" fails it while "fix: correct null check"
passes. -/
theorem c3_amended (pr : Artifact) (fileChanges spamV qualityV : String)
    (h : spamV ≠ "SPAM") :
    analyzePR pr fileChanges spamV "INVALID" qualityV =
      { decision := "INVALID_COMMIT", step := 2,
        oracleCalls := ["pr_spam_detection", "pr_commit_check"] } ∧
    "pr_quality_check" ∉ (analyzePR pr fileChanges spamV "INVALID" qualityV).oracleCalls ∧
    isValidCommitTitle "fix: correct null check" = true ∧
    isValidCommitTitle "update stuff" = false := by
  have he : analyzePR pr fileChanges spamV "INVALID" qualityV =
      { decision := "INVALID_COMMIT", step := 2,
        oracleCalls := ["pr_spam_detection", "pr_commit_check"] } := by
    simp [analyzePR, h]
  refine ⟨he, ?_, by decide, by decide⟩
  rw [he]
  decide

/-- Witness for C3 (amended) at a concrete input. -/
theorem c3_amended_witness :
    analyzePR { title := "t", body := "" } "" "OK" "INVALID" "VALID" =
      { decision := "INVALID_COMMIT", step := 2,
        oracleCalls := ["pr_spam_detection", "pr_commit_check"] } ∧
    "pr_quality_check" ∉
      (analyzePR { title := "t", body := "" } "" "OK" "INVALID" "VALID").oracleCalls ∧
    isValidCommitTitle "fix: correct null check" = true ∧
    isValidCommitTitle "update stuff" = false :=
  c3_amended { title := "t", body := "" } "" "OK" "VALID" (by decide)

/-- Claim C4 counterexample: an `UNCLEAR` quality verdict does not leave the
PR unlabeled — the handler runs the same classify-and-label path as `KEEP`,
so with a non-empty label list a classification/label action is performed. -/
theorem c4_counterexample :
    (analyzePR { title := "feat: x", body := "b" } "" "OK" "VALID" "UNCLEAR").decision
      = "UNCLEAR" ∧
    handleNewPR { title := "feat: x", body := "b" } "" "OK" "VALID" "UNCLEAR" ["bug"]
      = [PRAction.classifyAndLabel] := by
  refine ⟨by decide, by decide⟩

/-- Claim C4 (amended): `UNCLEAR` is non-terminal — no close action is issued
and the PR stays open — but the handler then classifies and labels the PR
exactly as it does for `KEEP`; with a non-empty label list the
classify-and-label action is performed. -/
theorem c4_amended (labels : List String) (pr : Artifact) (fc spamV commitV : String)
    (h1 : spamV ≠ "SPAM") (h2 : commitV ≠ "INVALID") :
    (analyzePR pr fc spamV commitV "UNCLEAR").decision = "UNCLEAR" ∧
    (∀ r, PRAction.closeWithResponse r ∉ handlePRDecision "UNCLEAR" labels) ∧
    handlePRDecision "UNCLEAR" labels = handlePRDecision "KEEP" labels ∧
    (labels ≠ [] → handlePRDecision "UNCLEAR" labels = [PRAction.classifyAndLabel]) := by
  refine ⟨by simp [analyzePR, h1, h2], ?_, rfl, ?_⟩
  · intro r
    show PRAction.closeWithResponse r ∉ handleValidPRActions labels
    unfold handleValidPRActions
    by_cases hl : labels.length > 0 <;> simp [hl]
  · intro hne
    show handleValidPRActions labels = [PRAction.classifyAndLabel]
    unfold handleValidPRActions
    rw [if_pos (List.length_pos.mpr hne)]

/-- Witness for C4 (amended) at a concrete input. -/
theorem c4_amended_witness :
    (analyzePR { title := "a", body := "b" } "" "OK" "VALID" "UNCLEAR").decision
      = "UNCLEAR" ∧
    handlePRDecision "UNCLEAR" ["bug"] = [PRAction.classifyAndLabel] := by
  have h := c4_amended ["bug"] { title := "a", body := "b" } "" "OK" "VALID"
    (by decide) (by decide)
  exact ⟨h.1, h.2.2.2 (by decide)⟩

/-- Claim C9: within one terminal action the API calls are issued in the
fixed order comment → close → lock (lock only when requested), and
`executeApiCalls` records each call's own outcome without letting an earlier
failure stop later calls (each batch entry is mapped to its result
independently). -/
theorem c9_call_sequence (calls : List ApiCall) (a b c sl : Bool) :
    executeApiCalls calls =
      calls.map (fun cl => { name := cl.name, success := cl.ok }) ∧
    (closeIssue a b c sl).map (fun r => r.name) =
      ["comment", "close"] ++ (if sl then ["lock"] else []) ∧
    (closeIssue a b c sl).map (fun r => r.success) =
      [a, b] ++ (if sl then [c] else []) := by
  refine ⟨?_, ?_, ?_⟩
  · induction calls with
    | nil => rfl
    | cons d t ih => simp [executeApiCalls, ih]
  · cases sl <;> rfl
  · cases sl <;> rfl

/-! Integer characterization of the template threshold (rational arithmetic
does not reduce in the kernel, so concrete instances go through this
equivalence). -/

theorem hasTemplate_iff (t b : String) :
    (detectTemplate t b).hasTemplate = true ↔
      b ≠ "" ∧ 3 * max (totalLines b) 5 < 50 * indicatorCount t b := by
  by_cases hb : b = ""
  · simp [detectTemplate, hb]
  · simp only [detectTemplate, hb, if_false, decide_eq_true_eq, ne_eq,
      not_false_iff, true_and]
    have h5 : (0:ℚ) < 5 := by norm_num
    have key : max ((totalLines b : ℚ) / 5) 1 = ((max (totalLines b) 5 : ℕ) : ℚ) / 5 := by
      rcases le_total (totalLines b) 5 with h | h
      · rw [max_eq_right ((div_le_one h5).mpr (by exact_mod_cast h)),
          Nat.max_eq_right h]
        norm_num
      · rw [max_eq_left ((one_le_div h5).mpr (by exact_mod_cast h)),
          Nat.max_eq_left h]
    rw [gt_iff_lt, lt_min_iff, key]
    have hm5 : (0:ℚ) < ((max (totalLines b) 5 : ℕ) : ℚ) := by
      have : 0 < max (totalLines b) 5 := by omega
      exact_mod_cast this
    rw [div_div_eq_mul_div, div_mul_eq_mul_div, lt_div_iff₀ hm5]
    rw [show ((indicatorCount t b : ℚ) * 5 * 100) = ((indicatorCount t b * 500 : ℕ) : ℚ) by
      push_cast; ring]
    rw [show ((30:ℚ) * ((max (totalLines b) 5 : ℕ) : ℚ)) = ((30 * max (totalLines b) 5 : ℕ) : ℚ) by
      push_cast; ring]
    rw [Nat.cast_lt]
    constructor
    · rintro ⟨-, h⟩
      omega
    · intro h
      exact ⟨by norm_num, by omega⟩

/-- Claim C5: `detectTemplate`'s confidence always lies in [0, 100], the
template flag holds exactly when confidence exceeds 30, on a non-empty body
the confidence equals `min(100, indicatorCount / max(totalLines/5, 1) * 100)`,
and an empty body yields confidence 0 with no template. -/
theorem c5_confidence_bounds (title body : String) :
    0 ≤ (detectTemplate title body).confidence ∧
    (detectTemplate title body).confidence ≤ 100 ∧
    ((detectTemplate title body).hasTemplate = true ↔
      30 < (detectTemplate title body).confidence) ∧
    (body ≠ "" → (detectTemplate title body).confidence =
      min 100 ((indicatorCount title body : ℚ) / max ((totalLines body : ℚ) / 5) 1 * 100)) ∧
    (body = "" → (detectTemplate title body).confidence = 0 ∧
      (detectTemplate title body).hasTemplate = false) := by
  by_cases hb : body = ""
  · refine ⟨?_, ?_, ?_, ?_, ?_⟩ <;> simp [detectTemplate, hb]
  · have hM : (0:ℚ) < max ((totalLines body : ℚ) / 5) 1 :=
      lt_of_lt_of_le one_pos (le_max_right _ _)
    have hX : (0:ℚ) ≤ (indicatorCount title body : ℚ)
        / max ((totalLines body : ℚ) / 5) 1 * 100 :=
      mul_nonneg (div_nonneg (Nat.cast_nonneg _) hM.le) (by norm_num)
    refine ⟨?_, ?_, ?_, fun _ => ?_, fun h => absurd h hb⟩
    · simp only [detectTemplate, hb, if_false]
      exact le_min (by norm_num) hX
    · simp only [detectTemplate, hb, if_false]
      exact min_le_left _ _
    · simp [detectTemplate, hb]
    · simp [detectTemplate, hb]

/-- Witness for C5 at concrete inputs: the formula clause on a non-empty body
and the zero clause on the empty body. -/
theorem c5_confidence_bounds_witness :
    (detectTemplate "t" "hello").confidence =
      min 100 ((indicatorCount "t" "hello" : ℚ)
        / max ((totalLines "hello" : ℚ) / 5) 1 * 100) ∧
    (detectTemplate "t" "").confidence = 0 ∧
    (detectTemplate "t" "").hasTemplate = false :=
  ⟨(c5_confidence_bounds "t" "hello").2.2.2.1 (by decide),
   ((c5_confidence_bounds "t" "").2.2.2.2 rfl).1,
   ((c5_confidence_bounds "t" "").2.2.2.2 rfl).2⟩

/-- Claim C10: `templateType` ranges over bug_report / feature_request /
generic / unset; with no template it is unset, and with a template the type
is bug_report when a "bug" keyword occurs in title or body, else
feature_request on a "feature" keyword, else generic. -/
theorem c10_template_type (title body : String) :
    ((detectTemplate title body).templateType = none ∨
      (detectTemplate title body).templateType = some "bug_report" ∨
      (detectTemplate title body).templateType = some "feature_request" ∨
      (detectTemplate title body).templateType = some "generic") ∧
    ((detectTemplate title body).hasTemplate = false →
      (detectTemplate title body).templateType = none) ∧
    ((detectTemplate title body).hasTemplate = true →
      ((strIncludes (lower title) "bug" || strIncludes (lower body) "bug") = true →
        (detectTemplate title body).templateType = some "bug_report") ∧
      ((strIncludes (lower title) "bug" || strIncludes (lower body) "bug") = false →
        (strIncludes (lower title) "feature" || strIncludes (lower body) "feature") = true →
        (detectTemplate title body).templateType = some "feature_request") ∧
      ((strIncludes (lower title) "bug" || strIncludes (lower body) "bug") = false →
        (strIncludes (lower title) "feature" || strIncludes (lower body) "feature") = false →
        (detectTemplate title body).templateType = some "generic")) := by
  by_cases hb : body = ""
  · simp [detectTemplate, hb]
  · by_cases hc : (30:ℚ) <
      min 100 ((indicatorCount title body : ℚ) / max ((totalLines body : ℚ) / 5) 1 * 100)
    · rcases hbug : strIncludes (lower title) "bug" || strIncludes (lower body) "bug" with _ | _ <;>
        rcases hfeat : strIncludes (lower title) "feature"
            || strIncludes (lower body) "feature" with _ | _ <;>
        simp [detectTemplate, hb, hc, hbug, hfeat]
    · simp [detectTemplate, hb, hc]

/-- Witness for C10 at a concrete input with a detected template. -/
theorem c10_template_type_witness :
    (detectTemplate "Bug report" "### Description\nreal content here\n### Steps\nmore text").templateType
      = some "bug_report" := by
  have hti := (hasTemplate_iff "Bug report"
    "### Description\nreal content here\n### Steps\nmore text").mpr (by decide)
  exact ((c10_template_type "Bug report"
    "### Description\nreal content here\n### Steps\nmore text").2.2 hti).1 (by decide)

/-! Supporting definitions and lemmas for claims C6–C8. -/

/-- A body of sixty spaces: 60 characters long but blank once trimmed. -/
def body60 : String := String.mk (List.replicate 60 ' ')

/-- The quality score exactly as claim C6 words it: identical to the source
computation except that the untemplated content bonuses read the raw body
length instead of the trimmed length.  Used only to compare the claim against
the source. -/
def claimQualityScoreC6 (title body : String) : ℤ :=
  let ti := detectTemplate title body
  let ci := extractUserContent body ti
  let s1 : ℤ := if 10 < (trimS title).length then 50 + 15 else 50 - 10
  let s2 : ℤ :=
    if ti.hasTemplate then
      if !ci.isEmpty ∧ 2 ≤ ci.validSections.getD 0 then s1 + 25
      else if !ci.isEmpty then s1 + 10
      else s1 - 20
    else
      if 50 < body.length then s1 + 20
      else if 10 < body.length then s1 + 5
      else s1 - 25
  max 0 (min 100 s2)

/-- The quality score as amended: the untemplated bonuses read the trimmed
body length (and the title bonus the trimmed title length), as the source
does. -/
def amendedScoreC6 (title body : String) : ℤ :=
  let ti := detectTemplate title body
  let ci := extractUserContent body ti
  let s1 : ℤ := if 10 < (trimS title).length then 50 + 15 else 50 - 10
  let s2 : ℤ :=
    if ti.hasTemplate then
      if !ci.isEmpty ∧ 2 ≤ ci.validSections.getD 0 then s1 + 25
      else if !ci.isEmpty then s1 + 10
      else s1 - 20
    else
      if 50 < (trimS body).length then s1 + 20
      else if 10 < (trimS body).length then s1 + 5
      else s1 - 25
  max 0 (min 100 s2)

/-- The JavaScript truthiness guard `s && k < s.trim().length` is redundant:
a non-trivial trimmed length already forces a non-empty string. -/
theorem cond_iff (s : String) (k : Nat) :
    (s ≠ "" ∧ k < (trimS s).length) ↔ k < (trimS s).length := by
  constructor
  · exact fun h => h.2
  · intro h
    refine ⟨?_, h⟩
    rintro rfl
    have h0 : (trimS "").length = 0 := rfl
    omega

/-- The level thresholds as a function of the clamped score. -/
theorem levelSpec (S : ℤ) :
    ((if S ≥ 70 then "high" else if S ≥ 40 then "medium" else "low") = "high" ↔ 70 ≤ S) ∧
    ((if S ≥ 70 then "high" else if S ≥ 40 then "medium" else "low") = "medium" ↔
      40 ≤ S ∧ S < 70) ∧
    ((if S ≥ 70 then "high" else if S ≥ 40 then "medium" else "low") = "low" ↔ S < 40) := by
  by_cases h70 : 70 ≤ S <;> by_cases h40 : 40 ≤ S <;>
    simp [h70, h40, ge_iff_le] <;> omega

/-- The level of `analyzeIssueQuality` is the threshold function of its own
score. -/
theorem analyzeIssueQuality_level_eq (title body : String) :
    (analyzeIssueQuality title body).level =
      (if (analyzeIssueQuality title body).score ≥ 70 then "high"
       else if (analyzeIssueQuality title body).score ≥ 40 then "medium" else "low") := rfl

/-- The amended score is clamped to [0, 100]. -/
theorem amendedScoreC6_bounds (title body : String) :
    0 ≤ amendedScoreC6 title body ∧ amendedScoreC6 title body ≤ 100 := by
  simp only [amendedScoreC6]
  exact ⟨le_max_left _ _, max_le (by norm_num) (min_le_left _ _)⟩

/-- Claim C6 counterexample: with title "t" and a body of 60 spaces (no
template detected), the source scores 50 − 10 − 25 = 15 (level low) because
the trimmed body is empty, while the claim's raw "body length > 50" rule
predicts 50 − 10 + 20 = 60; the claim as stated is false. -/
theorem c6_counterexample :
    (analyzeIssueQuality "t" body60).score = 15 ∧
    (analyzeIssueQuality "t" body60).level = "low" ∧
    claimQualityScoreC6 "t" body60 = 60 := by
  have hdt : detectTemplate "t" body60 =
      { hasTemplate := false, templateType := none, confidence := 0 } := by
    unfold detectTemplate
    rw [if_neg (by decide : ¬body60 = "")]
    rw [show indicatorCount "t" body60 = 0 from by decide,
      show totalLines body60 = 1 from by decide]
    norm_num
  refine ⟨?_, ?_, ?_⟩
  · simp only [analyzeIssueQuality, hdt]
    decide
  · simp only [analyzeIssueQuality, hdt]
    decide
  · simp only [claimQualityScoreC6, hdt]
    decide

/-- Claim C6 (amended): the quality score is base 50, ±15/−10 on the trimmed
title length, template-based content contribution (+25 / +10 / −20), or for
untemplated content +20 when the trimmed body length exceeds 50, +5 when it
exceeds 10, else −25; the result is clamped to [0, 100] and the level is
high/medium/low at the 70 and 40 thresholds. -/
theorem c6_amended (title body : String) :
    (analyzeIssueQuality title body).score = amendedScoreC6 title body ∧
    0 ≤ (analyzeIssueQuality title body).score ∧
    (analyzeIssueQuality title body).score ≤ 100 ∧
    ((analyzeIssueQuality title body).level = "high" ↔
      70 ≤ (analyzeIssueQuality title body).score) ∧
    ((analyzeIssueQuality title body).level = "medium" ↔
      40 ≤ (analyzeIssueQuality title body).score ∧
        (analyzeIssueQuality title body).score < 70) ∧
    ((analyzeIssueQuality title body).level = "low" ↔
      (analyzeIssueQuality title body).score < 40) := by
  have hs : (analyzeIssueQuality title body).score = amendedScoreC6 title body := by
    simp only [analyzeIssueQuality, amendedScoreC6, cond_iff]
  have hb := amendedScoreC6_bounds title body
  have hl := levelSpec ((analyzeIssueQuality title body).score)
  rw [analyzeIssueQuality_level_eq]
  exact ⟨hs, hs ▸ hb.1, hs ▸ hb.2, hl.1, hl.2.1, hl.2.2⟩

/-- A sample changed file for the C7 witness. -/
def sampleFile : PRFile :=
  { filename := "a.txt", status := "modified", additions := 1, deletions := 0, patch := none }

/-- A seven-file diff for the C7 witness. -/
def files7 : List PRFile := List.replicate 7 sampleFile

/-- Claim C7: the summary holds at most the configured number of files (the
first `N` of the diff), each entry draws at most `M` diff lines and only from
added/removed lines, a truncation note with the true total and the shown
count appears exactly when the diff exceeds the cap, and the light preset on
a 7-file diff yields 3 entries plus a (7, 3) note. -/
theorem c7_file_change_summary (files : List PRFile) (N M : Nat) (p : String) :
    (fileChangesSummary N M files).1.length = min N files.length ∧
    (fileChangesSummary N M files).1 = (files.take N).map (fileChangeInfo M) ∧
    ((addRemoveLines p).take M).length ≤ M ∧
    (∀ l ∈ (addRemoveLines p).take M, strStarts l "+" = true ∨ strStarts l "-" = true) ∧
    (N < files.length → (fileChangesSummary N M files).2 = some (files.length, N)) ∧
    (files.length ≤ N → (fileChangesSummary N M files).2 = none) ∧
    (files.length = 7 →
      (fileChangesSummary lightDepth.maxFiles lightDepth.maxLines files).1.length = 3 ∧
      (fileChangesSummary lightDepth.maxFiles lightDepth.maxLines files).2 = some (7, 3)) := by
  refine ⟨?_, rfl, ?_, ?_, ?_, ?_, ?_⟩
  · simp [fileChangesSummary]
  · exact (List.length_take M (addRemoveLines p)).le.trans (min_le_left _ _)
  · intro l hl
    have hm : l ∈ addRemoveLines p := List.mem_of_mem_take hl
    have hp := List.of_mem_filter hm
    rcases Bool.or_eq_true _ _ |>.mp hp with h | h
    · exact Or.inl h
    · exact Or.inr h
  · intro h
    simp [fileChangesSummary, h]
  · intro h
    simp [fileChangesSummary, Nat.not_lt.mpr h]
  · intro h
    constructor
    · simp [fileChangesSummary, h, lightDepth]
    · simp [fileChangesSummary, h, lightDepth]

/-- Witness for C7 at concrete inputs: a truncated and an untruncated cap on
the seven-file diff, and the light-preset instance. -/
theorem c7_file_change_summary_witness :
    (fileChangesSummary 1 1 files7).2 = some (7, 1) ∧
    (fileChangesSummary 9 1 files7).2 = none ∧
    (fileChangesSummary lightDepth.maxFiles lightDepth.maxLines files7).1.length = 3 ∧
    (fileChangesSummary lightDepth.maxFiles lightDepth.maxLines files7).2 = some (7, 3) :=
  ⟨(c7_file_change_summary files7 1 1 "").2.2.2.2.1 (by decide),
   (c7_file_change_summary files7 9 1 "").2.2.2.2.2.1 (by decide),
   ((c7_file_change_summary files7 1 1 "").2.2.2.2.2.2 (by decide)).1,
   ((c7_file_change_summary files7 1 1 "").2.2.2.2.2.2 (by decide)).2⟩

/-- The body of the C8 counterexample: two template sections, the second one
filled with the `_No response_` placeholder. -/
def c8Body : String :=
  "### Description\nsome real content here\n### Steps to reproduce\n_No response_"

/-- Every section retained by `saveSection` has non-empty, non-placeholder
content. -/
theorem saveSection_valid (cur : Option String) (cc : List String)
    (acc : List TemplateSection)
    (hacc : ∀ s ∈ acc, s.content ≠ "" ∧ isEmptyContent s.content = false) :
    ∀ s ∈ saveSection cur cc acc, s.content ≠ "" ∧ isEmptyContent s.content = false := by
  intro s hs
  rcases cur with _ | t
  · exact hacc s hs
  · simp only [saveSection] at hs
    by_cases h1 : t ≠ "" ∧ cc ≠ []
    · rw [if_pos h1] at hs
      by_cases h2 : trimS (joinWith "\n" cc) ≠ "" ∧
          (!isEmptyContent (trimS (joinWith "\n" cc))) = true
      · rw [if_pos h2] at hs
        rcases List.mem_append.mp hs with h | h
        · exact hacc s h
        · rcases List.mem_singleton.mp h with rfl
          exact ⟨h2.1, by simpa using h2.2⟩
      · rw [if_neg h2] at hs
        exact hacc s hs
    · rw [if_neg h1] at hs
      exact hacc s hs

/-- Every section produced by the extraction loop has non-empty,
non-placeholder content: empty sections are discarded at detection time. -/
theorem extractLoop_valid (lines : List String) :
    ∀ (cur : Option String) (cc : List String) (acc : List TemplateSection),
      (∀ s ∈ acc, s.content ≠ "" ∧ isEmptyContent s.content = false) →
      ∀ s ∈ extractLoop lines cur cc acc,
        s.content ≠ "" ∧ isEmptyContent s.content = false := by
  induction lines with
  | nil =>
    intro cur cc acc hacc
    exact saveSection_valid cur cc acc hacc
  | cons l rest ih =>
    intro cur cc acc hacc
    unfold extractLoop
    by_cases hl : isHeaderLine l = true
    · rw [if_pos hl]
      exact ih _ _ _ (saveSection_valid cur cc acc hacc)
    · rw [if_neg hl]
      exact ih _ _ _ hacc

/-- Claim C8 counterexample: on a body with two detected sections where the
second holds only `_No response_`, the discarded empty section is not counted:
`totalSections` is 1 (equal to `validSections`), not the 2 detected header
sections the claim predicts. -/
theorem c8_counterexample :
    isEmptyContent "_No response_" = true ∧
    (detectTemplate "Bug report" c8Body).hasTemplate = true ∧
    (extractUserContent c8Body (detectTemplate "Bug report" c8Body)).totalSections = some 1 ∧
    (extractUserContent c8Body (detectTemplate "Bug report" c8Body)).validSections = some 1 ∧
    ((splitLines c8Body).filter
      (fun l => isHeaderLine l && decide (stripHeaderMarkers l ≠ ""))).length = 2 := by
  have hti : (detectTemplate "Bug report" c8Body).hasTemplate = true :=
    (hasTemplate_iff _ _).mpr (by decide)
  refine ⟨by decide, hti, ?_, ?_, by decide⟩
  · simp only [extractUserContent, hti]
    decide
  · simp only [extractUserContent, hti]
    decide

/-- Claim C8 (amended): under a detected template a `_No response_` section is
classified empty and discarded during extraction; `isEmpty` holds exactly when
no valid section remains; and `totalSections` counts only the retained
sections, so it always equals `validSections` (discarded empty sections are
not counted). -/
theorem c8_amended (body : String) (ti : TemplateAnalysis)
    (h : ti.hasTemplate = true) (hb : body ≠ "") :
    (extractUserContent body ti).totalSections = (extractUserContent body ti).validSections ∧
    ((extractUserContent body ti).isEmpty = true ↔
      (extractUserContent body ti).validSections = some 0) ∧
    isEmptyContent "_No response_" = true := by
  have hcond : (decide (body = "") || !ti.hasTemplate) = false := by
    simp [h, hb]
  have hall : ∀ s ∈ extractLoop (splitLines body) none [] [],
      s.content ≠ "" ∧ isEmptyContent s.content = false :=
    extractLoop_valid (splitLines body) none [] [] (by intro s hs; cases hs)
  have hfil : (extractLoop (splitLines body) none [] []).filter
        (fun s => decide (s.content ≠ "" ∧ (!isEmptyContent s.content) = true))
      = extractLoop (splitLines body) none [] [] := by
    rw [List.filter_eq_self]
    intro s hs
    have hx := hall s hs
    simp [hx.1, hx.2]
  refine ⟨?_, ?_, by decide⟩
  · simp only [extractUserContent, hcond, Bool.false_eq_true, if_false, hfil,
      List.length_map]
  · simp only [extractUserContent, hcond, Bool.false_eq_true, if_false, hfil,
      List.length_map, decide_eq_true_eq, Option.some_inj]

/-- Witness for C8 (amended) at a concrete templated input. -/
theorem c8_amended_witness :
    (extractUserContent "x" { hasTemplate := true, templateType := none, confidence := 0 }).totalSections
      = (extractUserContent "x"
          { hasTemplate := true, templateType := none, confidence := 0 }).validSections ∧
    ((extractUserContent "x"
        { hasTemplate := true, templateType := none, confidence := 0 }).isEmpty = true ↔
      (extractUserContent "x"
        { hasTemplate := true, templateType := none, confidence := 0 }).validSections = some 0) ∧
    isEmptyContent "_No response_" = true :=
  c8_amended "x" { hasTemplate := true, templateType := none, confidence := 0 } rfl (by decide)

end NomoreSpam
